import Mathlib

/-!
Verification development for a Selenium-based UI test framework
(locator store + element resolver + search page object).

The Python sources `src/helper.py`, `src/common_page_elements.py` and
`src/search.py` are shallowly embedded below.  The browser-automation
session (Selenium WebDriver) is modelled as an explicit `Driver` value:
a snapshot of which elements each (strategy, selector) pair matches,
plus time-indexed readiness predicates used by the explicit waits.
Python exceptions are modelled with `Except String`; `print` diagnostics
are accumulated in a log.
-/

set_option autoImplicit false

namespace UIFramework

/-- Selenium locator strategies (`selenium.webdriver.common.by.By`). -/
inductive By where
  | ID
  | XPATH
  | CSS_SELECTOR
  | NAME
  | CLASS_NAME
  | LINK_TEXT
  | P_LINK_TEXT
  | TAG_NAME
deriving DecidableEq

/-- A live document node (Selenium `WebElement`), as observed through the
operations the framework uses: its `value` attribute, how `send_keys`
transforms that attribute (the page may apply client-side processing),
and whether `click`, `send_keys` or `clear` raise in the underlying
session (stale references, interception, ...). -/
structure Element where
  value : String
  onSendKeys : String → String → String
  clickErr : Option String
  sendKeysErr : Option String
  clearErr : Option String

/-- The browser session.  `find` is the snapshot of matching nodes for a
(strategy, selector) pair; the `...At` fields give, at poll tick `t`, the
node (if any) that satisfies the corresponding readiness condition. -/
structure Driver where
  find : By → String → List Element
  visibleAt : Nat → By → String → Option Element
  clickableAt : Nat → By → String → Option Element
  presentAt : Nat → By → String → Option Element

/-- Result of running a Python-level operation: either a normal value or
a propagated exception, together with everything printed along the way. -/
structure Res (α : Type) where
  result : Except String α
  log : List String

/-- The message of a Python `KeyError` for key `k`. -/
def keyError (k : String) : String := "KeyError: " ++ k

/-- Python `dict` lookup on an association list (first matching key). -/
def dget {α : Type} : List (String × α) → String → Option α
  | [], _ => none
  | (k, v) :: rest, s => if s = k then some v else dget rest s

/-- Rendering of a locator dict in diagnostics (Python prints the dict). -/
def dictRepr : List (String × String) → String
  | [] => ""
  | (k, v) :: rest => k ++ ": " ++ v ++ "; " ++ dictRepr rest

/-- An argument at the resolver's public interface: Python `None`, a
dict, an already-resolved `WebElement`, or some other object (with its
Python truthiness). -/
inductive PyArg where
  | pynone
  | dict (entries : List (String × String))
  | elem (e : Element)
  | other (truthy : Bool)

/-- The `if`/`elif` chain over `locator["type"]` shared verbatim by
`get_page_element` and `get_page_elements`. -/
def findByChain (ty : String) : Option By :=
  if ty = "id" then some By.ID
  else if ty = "xpath" then some By.XPATH
  else if ty = "css" then some By.CSS_SELECTOR
  else if ty = "name" then some By.NAME
  else if ty = "class" then some By.CLASS_NAME
  else if ty = "link_text" then some By.LINK_TEXT
  else if ty = "partial_link_text" then some By.P_LINK_TEXT
  else if ty = "tag_name" then some By.TAG_NAME
  else none

/-- The fixed dict literal inside `CommonPageElements._get_by_type`. -/
def locator_map : List (String × By) :=
  [("id", By.ID), ("xpath", By.XPATH), ("css", By.CSS_SELECTOR),
   ("name", By.NAME), ("class", By.CLASS_NAME), ("link_text", By.LINK_TEXT),
   ("partial_link_text", By.P_LINK_TEXT), ("tag_name", By.TAG_NAME)]

/-- `CommonPageElements._get_by_type`: `locator_map.get(locator_type)`. -/
def _get_by_type (locator_type : String) : Option By :=
  dget locator_map locator_type

/-- Selenium `driver.find_element`: first matching node, raises
`NoSuchElementException` when nothing matches. -/
def find_element (d : Driver) (b : By) (v : String) : Except String Element :=
  match d.find b v with
  | [] => .error ("NoSuchElementException: " ++ v)
  | e :: _ => .ok e

/-- Selenium `driver.find_elements`: all matching nodes (empty on no match,
never raises). -/
def find_elements (d : Driver) (b : By) (v : String) : List Element :=
  d.find b v

/-- `CommonPageElements.get_page_element`.  Guard: `not locator or not
isinstance(locator, dict)` prints "Invalid locator format" and returns
`None` (so `None`, the empty dict and every non-dict short-circuit).
Then `locator["type"]` is read (a propagating `KeyError` on a non-empty
dict without the key), the `if`/`elif` chain picks a strategy, and either
`driver.find_element` runs under `try/except Exception` (no-match prints
a diagnostic and yields `None`) or, with no strategy, a diagnostic naming
`locator['type']` and `locator['value']` is printed and `None` returned. -/
def get_page_element (d : Driver) (locator : PyArg) : Res (Option Element) :=
  match locator with
  | .dict [] => ⟨.ok none, ["Invalid locator format"]⟩
  | .dict entries =>
    match dget entries "type" with
    | none => ⟨.error (keyError "type"), []⟩
    | some ty =>
      match findByChain ty with
      | some find_by =>
        match dget entries "value" with
        | none =>
          ⟨.ok none,
           ["Element not found with locator " ++ dictRepr entries ++ ": " ++ keyError "value"]⟩
        | some v =>
          match find_element d find_by v with
          | .ok el => ⟨.ok (some el), []⟩
          | .error e =>
            ⟨.ok none,
             ["Element not found with locator " ++ dictRepr entries ++ ": " ++ e]⟩
      | none =>
        match dget entries "value" with
        | none => ⟨.error (keyError "value"), []⟩
        | some v =>
          ⟨.ok none, ["Invalid locator type " ++ ty ++ " for locator " ++ v]⟩
  | _ => ⟨.ok none, ["Invalid locator format"]⟩

/-- `CommonPageElements.get_page_elements`: same structure as
`get_page_element` but delegating to `driver.find_elements` and
returning `[]` in every failure branch. -/
def get_page_elements (d : Driver) (locator : PyArg) : Res (List Element) :=
  match locator with
  | .dict [] => ⟨.ok [], ["Invalid locator format"]⟩
  | .dict entries =>
    match dget entries "type" with
    | none => ⟨.error (keyError "type"), []⟩
    | some ty =>
      match findByChain ty with
      | some find_by =>
        match dget entries "value" with
        | none =>
          ⟨.ok [],
           ["Elements not found with locator " ++ dictRepr entries ++ ": " ++ keyError "value"]⟩
        | some v => ⟨.ok (find_elements d find_by v), []⟩
      | none =>
        match dget entries "value" with
        | none => ⟨.error (keyError "value"), []⟩
        | some v =>
          ⟨.ok [], ["Invalid locator type " ++ ty ++ " for locator " ++ v]⟩
  | _ => ⟨.ok [], ["Invalid locator format"]⟩

/-- `WebElement.click`: raises in the session exactly when the node's
`clickErr` is set. -/
def Element.click (el : Element) : Except String Unit :=
  match el.clickErr with
  | some err => .error err
  | none => .ok ()

/-- `WebElement.send_keys`: raises when `sendKeysErr` is set, otherwise
updates the node's `value` attribute via the page's client-side
processing (`onSendKeys`). -/
def Element.send_keys (el : Element) (keys : String) : Except String Element :=
  match el.sendKeysErr with
  | some err => .error err
  | none => .ok { el with value := el.onSendKeys el.value keys }

/-- `WebElement.clear`: raises when `clearErr` is set, otherwise empties
the node's `value` attribute. -/
def Element.clear (el : Element) : Except String Element :=
  match el.clearErr with
  | some err => .error err
  | none => .ok { el with value := "" }

/-- `CommonPageElements.click_element`.  The whole body runs under
`try/except Exception`.  A dict argument is resolved via
`get_page_element` first (an unresolved dict prints "Could not find
element to click" and skips the click); any other argument is clicked
directly (`None`/non-elements raise `AttributeError`, which the handler
catches).  The returned `Bool` records whether a click was actually
dispatched to the session; exceptions never escape the handler. -/
def click_element (d : Driver) (element : PyArg) : Res Bool :=
  let body : Res Bool :=
    match element with
    | .dict entries =>
      let r := get_page_element d (.dict entries)
      match r.result with
      | .error e => ⟨.error e, r.log⟩
      | .ok (some el) =>
        match el.click with
        | .error err => ⟨.error err, r.log⟩
        | .ok _ => ⟨.ok true, r.log⟩
      | .ok none =>
        ⟨.ok false, r.log ++ ["Could not find element to click: " ++ dictRepr entries]⟩
    | .elem el =>
      match el.click with
      | .error err => ⟨.error err, []⟩
      | .ok _ => ⟨.ok true, []⟩
    | .pynone => ⟨.error "AttributeError: NoneType has no attribute click", []⟩
    | .other _ => ⟨.error "AttributeError: object has no attribute click", []⟩
  match body.result with
  | .error e =>
    ⟨.ok false, body.log ++ ["Exception occurred while clicking: " ++ e]⟩
  | .ok b => ⟨.ok b, body.log⟩

/-- `CommonPageElements.enter_keys_to_element`.  Under `try/except
Exception`: a dict argument is resolved first (an unresolved dict prints
a diagnostic and returns `None`); on a resolved node it sends the keys
and returns `get_attribute("value")`, the post-input `value` attribute;
any exception is caught, printed, and turned into `None`. -/
def enter_keys_to_element (d : Driver) (element : PyArg) (keys : String) :
    Res (Option String) :=
  let body : Res (Option String) :=
    match element with
    | .dict entries =>
      let r := get_page_element d (.dict entries)
      match r.result with
      | .error e => ⟨.error e, r.log⟩
      | .ok (some el) =>
        match el.send_keys keys with
        | .error err => ⟨.error err, r.log⟩
        | .ok el2 => ⟨.ok (some el2.value), r.log⟩
      | .ok none =>
        ⟨.ok none, r.log ++ ["Could not find element to send keys: " ++ dictRepr entries]⟩
    | .elem el =>
      match el.send_keys keys with
      | .error err => ⟨.error err, []⟩
      | .ok el2 => ⟨.ok (some el2.value), []⟩
    | .pynone => ⟨.error "AttributeError: NoneType has no attribute send_keys", []⟩
    | .other _ => ⟨.error "AttributeError: object has no attribute send_keys", []⟩
  match body.result with
  | .error e =>
    ⟨.ok none, body.log ++ ["Exception occurred while sending keys: " ++ e]⟩
  | .ok v => ⟨.ok v, body.log⟩

/-- `WebDriverWait(driver, limit).until(cond)`: poll the condition at
ticks `0, 1, ..., limit`; return the first node produced, or raise
`TimeoutException` if none appears within the wait's own bound. -/
def waitUntil (limit : Nat) (cond : Nat → Option Element) : Except String Element :=
  match (List.range (limit + 1)).findSome? cond with
  | some el => .ok el
  | none => .error "TimeoutException"

/-- `CommonPageElements`: holds the session and the wait constructed in
`__init__` as `WebDriverWait(driver, 10)` — its bound is fixed at 10. -/
structure CommonPageElements where
  driver : Driver
  waitTimeout : Nat

/-- `CommonPageElements.__init__(driver)`. -/
def CommonPageElements.init (driver : Driver) : CommonPageElements :=
  ⟨driver, 10⟩

/-- `CommonPageElements.wait_for_element_to_be_clickable`.  Under
`try/except`: reads `locator["type"]`, maps it via `_get_by_type`, and —
when a strategy exists — waits on `self.wait` (whose bound is the 10 set
in `__init__`; the `timeout` argument is used only in the diagnostic).
With no strategy the `if` is skipped and `None` returned; any exception
(KeyError, TimeoutException) is caught, printed, and becomes `None`. -/
def wait_for_element_to_be_clickable (cpe : CommonPageElements)
    (locator : List (String × String)) (timeout : Nat) : Res (Option Element) :=
  let body : Res (Option Element) :=
    match dget locator "type" with
    | none => ⟨.error (keyError "type"), []⟩
    | some ty =>
      match _get_by_type ty with
      | none => ⟨.ok none, []⟩
      | some find_by =>
        match dget locator "value" with
        | none => ⟨.error (keyError "value"), []⟩
        | some v =>
          match waitUntil cpe.waitTimeout (fun t => cpe.driver.clickableAt t find_by v) with
          | .ok el => ⟨.ok (some el), []⟩
          | .error e => ⟨.error e, []⟩
  match body.result with
  | .error e =>
    ⟨.ok none,
     body.log ++ ["Element not clickable within " ++ toString timeout ++ " seconds: " ++ e]⟩
  | .ok v => ⟨.ok v, body.log⟩

/-- `CommonPageElements.wait_for_element_visible`: same shape as the
clickable wait, with the visibility readiness condition. -/
def wait_for_element_visible (cpe : CommonPageElements)
    (locator : List (String × String)) (timeout : Nat) : Res (Option Element) :=
  let body : Res (Option Element) :=
    match dget locator "type" with
    | none => ⟨.error (keyError "type"), []⟩
    | some ty =>
      match _get_by_type ty with
      | none => ⟨.ok none, []⟩
      | some find_by =>
        match dget locator "value" with
        | none => ⟨.error (keyError "value"), []⟩
        | some v =>
          match waitUntil cpe.waitTimeout (fun t => cpe.driver.visibleAt t find_by v) with
          | .ok el => ⟨.ok (some el), []⟩
          | .error e => ⟨.error e, []⟩
  match body.result with
  | .error e =>
    ⟨.ok none,
     body.log ++ ["Element not visible within " ++ toString timeout ++ " seconds: " ++ e]⟩
  | .ok v => ⟨.ok v, body.log⟩

/-- A parsed locator file: symbolic element names mapped to locator
dicts, as produced by `yaml.load` on `search_locators.yaml`. -/
abbrev LocatorStore := List (String × List (String × String))

/-- Load failures of `Helper.get_locators`: `open` raises when the file
is absent, `yaml.load` raises when the contents are malformed. -/
inductive LoadError where
  | fileAbsent (path : String)
  | malformed (path : String)
deriving DecidableEq

/-- A file system view for the locator directory: `none` when the file is
absent, `some none` when it exists but is not well-formed YAML, and
`some (some store)` when it parses to a locator mapping. -/
abbrev LocatorFS := String → Option (Option LocatorStore)

/-- `Helper.get_locators(filename)`: opens the locator file and parses it
with `yaml.load`; there is no handler, so `FileNotFoundError`/`YAMLError`
propagate to the caller. -/
def get_locators (fs : LocatorFS) (filename : String) : Except LoadError LocatorStore :=
  match fs filename with
  | none => .error (.fileAbsent filename)
  | some none => .error (.malformed filename)
  | some (some locs) => .ok locs

/-- `SearchPage`: a `CommonPageElements` subclass holding the locator
mapping loaded at construction (`self.page_locators`) and the
`WebDriverWait(driver, 10)` reassigned in `__init__`. -/
structure SearchPage where
  driver : Driver
  waitTimeout : Nat
  page_locators : LocatorStore

/-- `SearchPage.__init__(driver)`: loads `search_locators.yaml` via the
helper (a load failure propagates and construction fails) and sets the
10-second wait. -/
def SearchPage.init (fs : LocatorFS) (driver : Driver) : Except LoadError SearchPage :=
  match get_locators fs "search_locators.yaml" with
  | .error e => .error e
  | .ok locs => .ok ⟨driver, 10, locs⟩

/-- Selenium special key codepoints used by the page object. -/
def Keys.ENTER : String := "\uE007"

def Keys.CONTROL : String := "\uE009"

def Keys.DELETE : String := "\uE017"

/-- `SearchPage.check_search_element`.  Tries
`get_page_element(self.page_locators["search-box"])` under a bare
`except`; a raised exception (missing store key, malformed dict) falls
back to the `"search-input"` locator under a second bare `except`.  A
resolver that merely returns `None` produces `False` (here `.ok none`)
on the spot — the bare `except` does not fire.  The page object is
returned unchanged (the method assigns no attribute). -/
def check_search_element (sp : SearchPage) : Res (Option Element) × SearchPage :=
  let attempt (key : String) : Res (Option Element) :=
    match dget sp.page_locators key with
    | none => ⟨.error (keyError key), []⟩
    | some loc => get_page_element sp.driver (.dict loc)
  let a1 := attempt "search-box"
  (match a1.result with
   | .ok ele => ⟨.ok ele, a1.log⟩
   | .error _ =>
     let a2 := attempt "search-input"
     match a2.result with
     | .ok ele => ⟨.ok ele, a1.log ++ a2.log⟩
     | .error _ => ⟨.ok none, a1.log ++ a2.log⟩, sp)

/-- `SearchPage.search_for_stock(stock_symbol)`.  Under `try/except
Exception`: resolve the search box via `check_search_element` (a falsy
result returns `False`), then `clear`, type the symbol, press ENTER and
return `True`; any exception is printed and becomes `False`. -/
def search_for_stock (sp : SearchPage) (stock_symbol : String) : Res Bool × SearchPage :=
  let body : Res Bool :=
    let r := (check_search_element sp).1
    match r.result with
    | .error e => ⟨.error e, r.log⟩
    | .ok none => ⟨.ok false, r.log⟩
    | .ok (some el) =>
      match el.clear with
      | .error e => ⟨.error e, r.log⟩
      | .ok el1 =>
        match el1.send_keys stock_symbol with
        | .error e => ⟨.error e, r.log⟩
        | .ok el2 =>
          match el2.send_keys Keys.ENTER with
          | .error e => ⟨.error e, r.log⟩
          | .ok _ => ⟨.ok true, r.log⟩
  (match body.result with
   | .error e => ⟨.ok false, body.log ++ ["Error during search: " ++ e]⟩
   | .ok b => ⟨.ok b, body.log⟩, sp)

/-- `SearchPage.clear_and_search_stock(stock_symbol)`: like
`search_for_stock` with an extra select-all/delete key sequence. -/
def clear_and_search_stock (sp : SearchPage) (stock_symbol : String) : Res Bool × SearchPage :=
  let body : Res Bool :=
    let r := (check_search_element sp).1
    match r.result with
    | .error e => ⟨.error e, r.log⟩
    | .ok none => ⟨.ok false, r.log⟩
    | .ok (some el) =>
      match el.clear with
      | .error e => ⟨.error e, r.log⟩
      | .ok el1 =>
        match el1.send_keys (Keys.CONTROL ++ "a") with
        | .error e => ⟨.error e, r.log⟩
        | .ok el2 =>
          match el2.send_keys Keys.DELETE with
          | .error e => ⟨.error e, r.log⟩
          | .ok el3 =>
            match el3.send_keys stock_symbol with
            | .error e => ⟨.error e, r.log⟩
            | .ok el4 =>
              match el4.send_keys Keys.ENTER with
              | .error e => ⟨.error e, r.log⟩
              | .ok _ => ⟨.ok true, r.log⟩
  (match body.result with
   | .error e => ⟨.ok false, body.log ++ ["Error during clear and search: " ++ e]⟩
   | .ok b => ⟨.ok b, body.log⟩, sp)

/-- `SearchPage.clear_search_box`: resolve the box, `clear` it, return
`True`; falsy resolution or any exception yields `False`. -/
def clear_search_box (sp : SearchPage) : Res Bool × SearchPage :=
  let body : Res Bool :=
    let r := (check_search_element sp).1
    match r.result with
    | .error e => ⟨.error e, r.log⟩
    | .ok none => ⟨.ok false, r.log⟩
    | .ok (some el) =>
      match el.clear with
      | .error e => ⟨.error e, r.log⟩
      | .ok _ => ⟨.ok true, r.log⟩
  (match body.result with
   | .error e => ⟨.ok false, body.log ++ ["Error clearing search box: " ++ e]⟩
   | .ok b => ⟨.ok b, body.log⟩, sp)

/-- `SearchPage.get_search_results`: under a bare `except`, look up the
optional `"search-results"` locator; when present, wait (on the fixed
10-second `self.wait`) for a CSS match to be present, then return
`find_elements` on it; every failure path returns `[]`. -/
def get_search_results (sp : SearchPage) : Res (List Element) × SearchPage :=
  let body : Res (List Element) :=
    match dget sp.page_locators "search-results" with
    | none => ⟨.ok [], []⟩
    | some loc =>
      match dget loc "value" with
      | none => ⟨.error (keyError "value"), []⟩
      | some v =>
        match waitUntil sp.waitTimeout (fun t => sp.driver.presentAt t By.CSS_SELECTOR v) with
        | .error e => ⟨.error e, []⟩
        | .ok _ => ⟨.ok (find_elements sp.driver By.CSS_SELECTOR v), []⟩
  (match body.result with
   | .error _ => ⟨.ok [], body.log⟩
   | .ok l => ⟨.ok l, body.log⟩, sp)

/-- `SearchPage.verify_stock_information_displayed`: resolve the optional
`"stock-price"` and `"stock-symbol"` locators (defaulting to the empty
dict, which the resolver rejects as invalid format) and return whether
either resolved; a bare `except` maps any exception to `False`. -/
def verify_stock_information_displayed (sp : SearchPage) : Res Bool × SearchPage :=
  let body : Res Bool :=
    let r1 := get_page_element sp.driver (.dict ((dget sp.page_locators "stock-price").getD []))
    match r1.result with
    | .error e => ⟨.error e, r1.log⟩
    | .ok p =>
      let r2 := get_page_element sp.driver (.dict ((dget sp.page_locators "stock-symbol").getD []))
      match r2.result with
      | .error e => ⟨.error e, r1.log ++ r2.log⟩
      | .ok s => ⟨.ok (p.isSome || s.isSome), r1.log ++ r2.log⟩
  (match body.result with
   | .error _ => ⟨.ok false, body.log⟩
   | .ok b => ⟨.ok b, body.log⟩, sp)

/-- `SearchPage.wait_for_search_suggestions(timeout)`: look up the
optional `"search-suggestions"` locator and wait for a CSS presence
match.  The `timeout` argument is passed to `until` as its *message*
parameter, so the wait bound is still the fixed 10 of `self.wait` and
the argument only decorates the timeout error; success returns `True`,
everything else `False`. -/
def wait_for_search_suggestions (sp : SearchPage) (timeout : Nat) : Res Bool × SearchPage :=
  let body : Res Bool :=
    match dget sp.page_locators "search-suggestions" with
    | none => ⟨.ok false, []⟩
    | some loc =>
      match dget loc "value" with
      | none => ⟨.error (keyError "value"), []⟩
      | some v =>
        match waitUntil sp.waitTimeout (fun t => sp.driver.presentAt t By.CSS_SELECTOR v) with
        | .error e => ⟨.error (e ++ ": " ++ toString timeout), []⟩
        | .ok _ => ⟨.ok true, []⟩
  (match body.result with
   | .error _ => ⟨.ok false, body.log⟩
   | .ok b => ⟨.ok b, body.log⟩, sp)

/-! ### Concrete test fixtures used by witnesses and counterexamples -/

/-- A session with an empty document: nothing matches, nothing is ready. -/
def d0 : Driver :=
  { find := fun _ _ => [],
    visibleAt := fun _ _ _ => none,
    clickableAt := fun _ _ _ => none,
    presentAt := fun _ _ _ => none }

/-- A plain, healthy text input: empty value, appending keyboard input,
no induced session failures. -/
def el0 : Element :=
  { value := "",
    onSendKeys := fun v k => v ++ k,
    clickErr := none,
    sendKeysErr := none,
    clearErr := none }

/-! ### Helper lemmas -/

/-- A dict in which a lookup succeeds is non-empty. -/
theorem dget_some_ne_nil {α : Type} {l : List (String × α)} {k : String} {v : α}
    (h : dget l k = some v) : l ≠ [] := by
  intro hnil
  subst hnil
  simp [dget] at h

/-- The `if`/`elif` chain yields no strategy on every unrecognized string. -/
theorem findByChain_eq_none {ty : String}
    (h1 : ty ≠ "id") (h2 : ty ≠ "xpath") (h3 : ty ≠ "css") (h4 : ty ≠ "name")
    (h5 : ty ≠ "class") (h6 : ty ≠ "link_text") (h7 : ty ≠ "partial_link_text")
    (h8 : ty ≠ "tag_name") : findByChain ty = none := by
  simp [findByChain, h1, h2, h3, h4, h5, h6, h7, h8]

/-! ### Claim theorems -/

/-- C8: for every locator-type string, the `if`/`elif` dispatch chain used
by `get_page_element` and `get_page_elements` selects exactly the same
lookup strategy as the fixed lookup table in `_get_by_type`, and both
yield no strategy for every unrecognized string — the two dispatch
implementations are equal as functions. -/
theorem chain_table_dispatch_equivalent :
    ∀ s : String, findByChain s = _get_by_type s := by
  intro s
  simp only [findByChain, _get_by_type, locator_map, dget]

/-- C1: a locator descriptor carrying `type` and `value` keys whose type
string is outside the recognized set makes `get_page_element` return the
unresolved result `None` with a diagnostic naming the kind and the
value, and no exception is raised. -/
theorem unrecognized_kind_resolves_to_none (d : Driver)
    (entries : List (String × String)) (ty v : String)
    (hty : dget entries "type" = some ty)
    (hv : dget entries "value" = some v)
    (h1 : ty ≠ "id") (h2 : ty ≠ "xpath") (h3 : ty ≠ "css") (h4 : ty ≠ "name")
    (h5 : ty ≠ "class") (h6 : ty ≠ "link_text") (h7 : ty ≠ "partial_link_text")
    (h8 : ty ≠ "tag_name") :
    get_page_element d (.dict entries) =
      ⟨.ok none, ["Invalid locator type " ++ ty ++ " for locator " ++ v]⟩ := by
  have hchain : findByChain ty = none :=
    findByChain_eq_none h1 h2 h3 h4 h5 h6 h7 h8
  obtain ⟨e, rest, rfl⟩ : ∃ e rest, entries = e :: rest := by
    cases entries with
    | nil => exact absurd rfl (dget_some_ne_nil hty)
    | cons e rest => exact ⟨e, rest, rfl⟩
  simp [get_page_element, hty, hv, hchain]

/-- C1 witness: an unrecognized kind string on a concrete session. -/
theorem unrecognized_kind_resolves_to_none_witness :
    get_page_element d0 (.dict [("type", "zzz"), ("value", "q")]) =
      ⟨.ok none, ["Invalid locator type zzz for locator q"]⟩ :=
  unrecognized_kind_resolves_to_none d0 [("type", "zzz"), ("value", "q")] "zzz" "q"
    rfl rfl (by decide) (by decide) (by decide) (by decide) (by decide) (by decide)
    (by decide) (by decide)

/-- C4: a well-formed descriptor with a recognized kind matching zero
live nodes makes `get_page_element` return `None` with a diagnostic
referencing the descriptor and the no-match error, and makes
`get_page_elements` return the empty list; neither raises. -/
theorem recognized_kind_no_match_behavior (d : Driver)
    (entries : List (String × String)) (ty v : String) (b : By)
    (hty : dget entries "type" = some ty)
    (hchain : findByChain ty = some b)
    (hv : dget entries "value" = some v)
    (hfind : d.find b v = []) :
    get_page_element d (.dict entries) =
      ⟨.ok none,
       ["Element not found with locator " ++ dictRepr entries ++ ": " ++
          ("NoSuchElementException: " ++ v)]⟩ ∧
    get_page_elements d (.dict entries) = ⟨.ok [], []⟩ := by
  obtain ⟨e, rest, rfl⟩ : ∃ e rest, entries = e :: rest := by
    cases entries with
    | nil => exact absurd rfl (dget_some_ne_nil hty)
    | cons e rest => exact ⟨e, rest, rfl⟩
  constructor
  · simp [get_page_element, hty, hv, hchain, find_element, hfind]
  · simp [get_page_elements, hty, hv, hchain, find_elements, hfind]

/-- C4 witness: a recognized `id` descriptor with no matching node. -/
theorem recognized_kind_no_match_behavior_witness :
    get_page_element d0 (.dict [("type", "id"), ("value", "does-not-exist")]) =
      ⟨.ok none,
       ["Element not found with locator " ++
          dictRepr [("type", "id"), ("value", "does-not-exist")] ++ ": " ++
          ("NoSuchElementException: " ++ "does-not-exist")]⟩ ∧
    get_page_elements d0 (.dict [("type", "id"), ("value", "does-not-exist")]) =
      ⟨.ok [], []⟩ :=
  recognized_kind_no_match_behavior d0 [("type", "id"), ("value", "does-not-exist")]
    "id" "does-not-exist" By.ID rfl rfl rfl rfl

/-- C10: at the resolver's public interface, `None`, the empty dict,
non-dict objects and already-resolved elements all make
`get_page_element` return `None` and `get_page_elements` return `[]`
without raising; but a non-empty dict lacking the `type` key makes both
operations raise `KeyError` — the never-raises guarantee holds only for
dicts carrying a `type` key. -/
theorem resolver_interface_edge_cases (d : Driver) :
    (get_page_element d .pynone = ⟨.ok none, ["Invalid locator format"]⟩) ∧
    (get_page_element d (.dict []) = ⟨.ok none, ["Invalid locator format"]⟩) ∧
    (∀ b : Bool, get_page_element d (.other b) = ⟨.ok none, ["Invalid locator format"]⟩) ∧
    (∀ el : Element, get_page_element d (.elem el) = ⟨.ok none, ["Invalid locator format"]⟩) ∧
    (get_page_elements d .pynone = ⟨.ok [], ["Invalid locator format"]⟩) ∧
    (get_page_elements d (.dict []) = ⟨.ok [], ["Invalid locator format"]⟩) ∧
    (∀ b : Bool, get_page_elements d (.other b) = ⟨.ok [], ["Invalid locator format"]⟩) ∧
    (∀ el : Element, get_page_elements d (.elem el) = ⟨.ok [], ["Invalid locator format"]⟩) ∧
    (∀ entries : List (String × String), entries ≠ [] → dget entries "type" = none →
       get_page_element d (.dict entries) = ⟨.error (keyError "type"), []⟩ ∧
       get_page_elements d (.dict entries) = ⟨.error (keyError "type"), []⟩) := by
  refine ⟨rfl, rfl, fun _ => rfl, fun _ => rfl, rfl, rfl, fun _ => rfl, fun _ => rfl, ?_⟩
  intro entries hne hty
  obtain ⟨e, rest, rfl⟩ : ∃ e rest, entries = e :: rest := by
    cases entries with
    | nil => exact absurd rfl hne
    | cons e rest => exact ⟨e, rest, rfl⟩
  exact ⟨by simp [get_page_element, hty], by simp [get_page_elements, hty]⟩

/-- C10 witness: a non-empty dict without a `type` key raises KeyError in
both resolvers, on a concrete session. -/
theorem resolver_interface_edge_cases_witness :
    get_page_element d0 (.dict [("value", "q")]) = ⟨.error (keyError "type"), []⟩ ∧
    get_page_elements d0 (.dict [("value", "q")]) = ⟨.error (keyError "type"), []⟩ :=
  (resolver_interface_edge_cases d0).2.2.2.2.2.2.2.2 [("value", "q")]
    (by decide) rfl

/-- C5: `click_element` accepts a resolved element or a descriptor dict;
no exception ever reaches the caller, an unresolved descriptor is a
no-op with a diagnostic naming the descriptor, and a failure raised by
the underlying click is caught and reported. -/
theorem click_element_swallows_failures (d : Driver) :
    (∀ arg : PyArg, ∃ b : Bool, (click_element d arg).result = .ok b) ∧
    (∀ entries : List (String × String),
       (get_page_element d (.dict entries)).result = .ok none →
       click_element d (.dict entries) =
         ⟨.ok false, (get_page_element d (.dict entries)).log ++
            ["Could not find element to click: " ++ dictRepr entries]⟩) ∧
    (∀ (el : Element) (err : String), el.clickErr = some err →
       click_element d (.elem el) =
         ⟨.ok false, ["Exception occurred while clicking: " ++ err]⟩) := by
  refine ⟨?_, ?_, ?_⟩
  · intro arg
    simp only [click_element]
    split
    · exact ⟨false, rfl⟩
    · exact ⟨_, rfl⟩
  · intro entries h
    simp [click_element, h]
  · intro el err h
    simp [click_element, Element.click, h]

/-- C5 witness: a concrete element whose underlying click raises. -/
theorem click_element_swallows_failures_witness :
    click_element d0
        (.elem { el0 with clickErr := some "ElementClickInterceptedException" }) =
      ⟨.ok false,
       ["Exception occurred while clicking: ElementClickInterceptedException"]⟩ :=
  (click_element_swallows_failures d0).2.2
    { el0 with clickErr := some "ElementClickInterceptedException" }
    "ElementClickInterceptedException" rfl

/-- C6: `enter_keys_to_element` on a successfully resolved element sends
the text and returns the post-input `value` attribute; with no
client-side transformation and an initially empty input the returned
value is exactly the text sent; an unresolved descriptor or an
underlying send failure yields `None` plus a diagnostic. -/
theorem enter_keys_round_trip (d : Driver) :
    (∀ (el : Element) (keys : String), el.sendKeysErr = none →
       enter_keys_to_element d (.elem el) keys =
         ⟨.ok (some (el.onSendKeys el.value keys)), []⟩) ∧
    (∀ (entries : List (String × String)) (el : Element) (keys : String),
       (get_page_element d (.dict entries)).result = .ok (some el) →
       el.sendKeysErr = none →
       (enter_keys_to_element d (.dict entries) keys).result =
         .ok (some (el.onSendKeys el.value keys))) ∧
    (∀ (el : Element) (keys : String), el.sendKeysErr = none →
       el.onSendKeys = (fun v k => v ++ k) → el.value = "" →
       enter_keys_to_element d (.elem el) keys = ⟨.ok (some keys), []⟩) ∧
    (∀ (entries : List (String × String)) (keys : String),
       (get_page_element d (.dict entries)).result = .ok none →
       enter_keys_to_element d (.dict entries) keys =
         ⟨.ok none, (get_page_element d (.dict entries)).log ++
            ["Could not find element to send keys: " ++ dictRepr entries]⟩) ∧
    (∀ (el : Element) (keys err : String), el.sendKeysErr = some err →
       enter_keys_to_element d (.elem el) keys =
         ⟨.ok none, ["Exception occurred while sending keys: " ++ err]⟩) := by
  refine ⟨?_, ?_, ?_, ?_, ?_⟩
  · intro el keys h
    simp [enter_keys_to_element, Element.send_keys, h]
  · intro entries el keys hres h
    simp [enter_keys_to_element, Element.send_keys, hres, h]
  · intro el keys h htr hval
    simp [enter_keys_to_element, Element.send_keys, h, htr, hval]
  · intro entries keys hres
    simp [enter_keys_to_element, hres]
  · intro el keys err h
    simp [enter_keys_to_element, Element.send_keys, h]

/-- C6 witness: typing into a fresh, untransformed input round-trips the
text through the `value` attribute. -/
theorem enter_keys_round_trip_witness :
    enter_keys_to_element d0 (.elem el0) "AAPL" = ⟨.ok (some "AAPL"), []⟩ :=
  (enter_keys_round_trip d0).2.2.1 el0 "AAPL" rfl rfl rfl

/-- A session in which the node `id=q` is invisible and non-interactable
at poll ticks 0–4 and becomes ready from tick 5 on. -/
def dLateVisible : Driver :=
  { find := fun _ _ => [],
    visibleAt := fun t b v =>
      if 5 ≤ t then (if b = By.ID then (if v = "q" then some el0 else none) else none)
      else none,
    clickableAt := fun t b v =>
      if 5 ≤ t then (if b = By.ID then (if v = "q" then some el0 else none) else none)
      else none,
    presentAt := fun _ _ _ => none }

/-- C2 (refuting evaluation): both waiting operations ignore the
`timeout` argument and poll on the `WebDriverWait(driver, 10)` built in
`__init__`.  Called with `timeout = 0` on a node that is not visible or
clickable at the first readiness check (tick 0) but becomes ready at
tick 5, they return that element instead of the `None` the claim (and
the methods' own docstrings) require. -/
theorem wait_timeout_argument_ignored :
    (CommonPageElements.init dLateVisible).driver.visibleAt 0 By.ID "q" = none ∧
    (CommonPageElements.init dLateVisible).driver.clickableAt 0 By.ID "q" = none ∧
    wait_for_element_visible (CommonPageElements.init dLateVisible)
        [("type", "id"), ("value", "q")] 0 = ⟨.ok (some el0), []⟩ ∧
    wait_for_element_to_be_clickable (CommonPageElements.init dLateVisible)
        [("type", "id"), ("value", "q")] 0 = ⟨.ok (some el0), []⟩ :=
  ⟨rfl, rfl, rfl, rfl⟩

/-- How `check_search_element`'s bare `except` folds the outcome of a
fallback attempt: a raised exception becomes `False` (`none`), a normal
outcome is passed through. -/
def exceptToFalse : Except String (Option Element) → Except String (Option Element)
  | .ok ele => .ok ele
  | .error _ => .ok none

/-- The node the alternate `search-input` locator resolves to in the
fallback counterexample. -/
def elAlt : Element :=
  { value := "alt",
    onSendKeys := fun v k => v ++ k,
    clickErr := none,
    sendKeysErr := none,
    clearErr := none }

/-- A session in which `id=q` (the primary `search-box` selector) matches
nothing while `id=q2` (the alternate `search-input` selector) matches a
live node. -/
def dFallback : Driver :=
  { find := fun b v =>
      if b = By.ID then (if v = "q2" then [elAlt] else []) else [],
    visibleAt := fun _ _ _ => none,
    clickableAt := fun _ _ _ => none,
    presentAt := fun _ _ _ => none }

/-- A search page whose store holds both candidate descriptors, against
the session above. -/
def spFallback : SearchPage :=
  { driver := dFallback,
    waitTimeout := 10,
    page_locators :=
      [("search-box", [("type", "id"), ("value", "q")]),
       ("search-input", [("type", "id"), ("value", "q2")])] }

/-- C3 counterexample: when the primary `search-box` descriptor resolves
to no element (the strategy finds no matching node, the resolver returns
`None` without raising), `check_search_element` returns `False` with
only the primary attempt's diagnostic — although the alternate
`search-input` descriptor would resolve to a live node — and
`search_for_stock`/`clear_and_search_stock` report failure. -/
theorem fallback_not_tried_on_no_match :
    (check_search_element spFallback).1 =
      ⟨.ok none,
       ["Element not found with locator " ++
          dictRepr [("type", "id"), ("value", "q")] ++ ": " ++
          ("NoSuchElementException: " ++ "q")]⟩ ∧
    (get_page_element spFallback.driver
        (.dict [("type", "id"), ("value", "q2")])).result = .ok (some elAlt) ∧
    (search_for_stock spFallback "AAPL").1.result = .ok false ∧
    (clear_and_search_stock spFallback "AAPL").1.result = .ok false :=
  ⟨rfl, rfl, rfl, rfl⟩

/-- C3 (amended): `check_search_element` tries the alternate
`search-input` descriptor exactly when the primary `search-box` attempt
raises (its name missing from the store, or its descriptor malformed);
when the primary attempt merely resolves to no element (`None`), it
returns `False` at once without consulting the alternate. -/
theorem fallback_only_on_primary_raise (sp : SearchPage) :
    (∀ loc, dget sp.page_locators "search-box" = some loc →
       (get_page_element sp.driver (.dict loc)).result = .ok none →
       (check_search_element sp).1 =
         ⟨.ok none, (get_page_element sp.driver (.dict loc)).log⟩) ∧
    (∀ loc loc2, dget sp.page_locators "search-box" = some loc →
       (∃ e, (get_page_element sp.driver (.dict loc)).result = .error e) →
       dget sp.page_locators "search-input" = some loc2 →
       (check_search_element sp).1.result =
         exceptToFalse (get_page_element sp.driver (.dict loc2)).result) ∧
    (∀ loc2, dget sp.page_locators "search-box" = none →
       dget sp.page_locators "search-input" = some loc2 →
       (check_search_element sp).1.result =
         exceptToFalse (get_page_element sp.driver (.dict loc2)).result) := by
  refine ⟨?_, ?_, ?_⟩
  · intro loc hloc hres
    simp [check_search_element, hloc, hres]
  · intro loc loc2 hloc hraise hloc2
    obtain ⟨e, he⟩ := hraise
    cases hres2 : (get_page_element sp.driver (.dict loc2)).result with
    | ok ele => simp [check_search_element, hloc, he, hloc2, hres2, exceptToFalse]
    | error e2 => simp [check_search_element, hloc, he, hloc2, hres2, exceptToFalse]
  · intro loc2 hloc hloc2
    cases hres2 : (get_page_element sp.driver (.dict loc2)).result with
    | ok ele => simp [check_search_element, hloc, hloc2, hres2, exceptToFalse, keyError]
    | error e2 => simp [check_search_element, hloc, hloc2, hres2, exceptToFalse, keyError]

/-- C3 amended witness: the no-match case returns `False` with only the
primary diagnostic, and with `search-box` absent from the store the
alternate's outcome is what the method reports. -/
theorem fallback_only_on_primary_raise_witness :
    (check_search_element spFallback).1 =
      ⟨.ok none,
       (get_page_element spFallback.driver
          (.dict [("type", "id"), ("value", "q")])).log⟩ ∧
    (check_search_element
        { spFallback with
            page_locators := [("search-input", [("type", "id"), ("value", "q2")])] }).1.result =
      exceptToFalse
        (get_page_element spFallback.driver
           (.dict [("type", "id"), ("value", "q2")])).result :=
  ⟨(fallback_only_on_primary_raise spFallback).1
     [("type", "id"), ("value", "q")] rfl rfl,
   (fallback_only_on_primary_raise
      { spFallback with
          page_locators := [("search-input", [("type", "id"), ("value", "q2")])] }).2.2
     [("type", "id"), ("value", "q2")] rfl rfl⟩

/-- The locator file system used by the load-contract witness. -/
def fs0 : LocatorFS := fun _ =>
  some (some [("search-box", [("type", "id"), ("value", "q")])])

/-- C7: `Helper.get_locators` returns the parsed name→descriptor mapping
on success and raises exactly when the locator file is absent or
malformed; `SearchPage` construction fails exactly when the load does;
and every page-object operation swallows its internal failures (its
result is always a normal value, never a propagated exception). -/
theorem get_locators_load_contract :
    (∀ (fs : LocatorFS) (fn : String) (locs : LocatorStore),
       fs fn = some (some locs) → get_locators fs fn = .ok locs) ∧
    (∀ (fs : LocatorFS) (fn : String),
       (∃ e, get_locators fs fn = .error e) ↔ (fs fn = none ∨ fs fn = some none)) ∧
    (∀ (fs : LocatorFS) (d : Driver),
       (∃ sp, SearchPage.init fs d = .ok sp) ↔
         (∃ locs, get_locators fs "search_locators.yaml" = .ok locs)) ∧
    (∀ sp : SearchPage,
       (∃ v, (check_search_element sp).1.result = .ok v) ∧
       (∀ s, ∃ v, (search_for_stock sp s).1.result = .ok v) ∧
       (∀ s, ∃ v, (clear_and_search_stock sp s).1.result = .ok v) ∧
       (∃ v, (clear_search_box sp).1.result = .ok v) ∧
       (∃ v, (get_search_results sp).1.result = .ok v) ∧
       (∃ v, (verify_stock_information_displayed sp).1.result = .ok v) ∧
       (∀ t, ∃ v, (wait_for_search_suggestions sp t).1.result = .ok v)) := by
  refine ⟨?_, ?_, ?_, ?_⟩
  · intro fs fn locs h
    simp [get_locators, h]
  · intro fs fn
    cases hfs : fs fn with
    | none => simp [get_locators, hfs]
    | some o =>
      cases o with
      | none => simp [get_locators, hfs]
      | some locs => simp [get_locators, hfs]
  · intro fs d
    cases hfs : fs "search_locators.yaml" with
    | none => simp [SearchPage.init, get_locators, hfs]
    | some o =>
      cases o with
      | none => simp [SearchPage.init, get_locators, hfs]
      | some locs => simp [SearchPage.init, get_locators, hfs]
  · intro sp
    refine ⟨?_, fun s => ?_, fun s => ?_, ?_, ?_, ?_, fun t => ?_⟩
    · simp only [check_search_element]
      split
      · exact ⟨_, rfl⟩
      · split <;> exact ⟨_, rfl⟩
    · simp only [search_for_stock]
      split <;> exact ⟨_, rfl⟩
    · simp only [clear_and_search_stock]
      split <;> exact ⟨_, rfl⟩
    · simp only [clear_search_box]
      split <;> exact ⟨_, rfl⟩
    · simp only [get_search_results]
      split <;> exact ⟨_, rfl⟩
    · simp only [verify_stock_information_displayed]
      split <;> exact ⟨_, rfl⟩
    · simp only [wait_for_search_suggestions]
      split <;> exact ⟨_, rfl⟩

/-- C7 witness: loading a present, well-formed locator file yields the
parsed mapping, and an absent file is a load error. -/
theorem get_locators_load_contract_witness :
    get_locators fs0 "search_locators.yaml" =
      .ok [("search-box", [("type", "id"), ("value", "q")])] ∧
    ((∃ e, get_locators (fun _ => (none : Option (Option LocatorStore)))
        "search_locators.yaml" = .error e) ↔
      ((fun _ => (none : Option (Option LocatorStore))) "search_locators.yaml" = none ∨
       (fun _ => (none : Option (Option LocatorStore))) "search_locators.yaml" = some none)) :=
  ⟨(get_locators_load_contract).1 fs0 "search_locators.yaml"
     [("search-box", [("type", "id"), ("value", "q")])] rfl,
   (get_locators_load_contract).2.1 (fun _ => none) "search_locators.yaml"⟩

/-- C9: the locator store is read-only after load — every page-object
operation returns the `SearchPage` with the `page_locators` mapping
loaded at construction unchanged. -/
theorem page_locators_read_only (sp : SearchPage) (sym : String) (t : Nat) :
    ((check_search_element sp).2.page_locators = sp.page_locators) ∧
    ((search_for_stock sp sym).2.page_locators = sp.page_locators) ∧
    ((clear_and_search_stock sp sym).2.page_locators = sp.page_locators) ∧
    ((clear_search_box sp).2.page_locators = sp.page_locators) ∧
    ((get_search_results sp).2.page_locators = sp.page_locators) ∧
    ((verify_stock_information_displayed sp).2.page_locators = sp.page_locators) ∧
    ((wait_for_search_suggestions sp t).2.page_locators = sp.page_locators) :=
  ⟨rfl, rfl, rfl, rfl, rfl, rfl, rfl⟩

end UIFramework
